import Mathlib

/-!
Verification of the GDB Guile extension core (scm-ports.c, scm-symtab.c,
scm-smob.c, scm-exception.c, scm-iterator.c) against its design
specification.  The C sources are shallowly embedded: machine addresses
(CORE_ADDR / ULONGEST, 64 bits) become natural numbers with explicit
reduction mod 2^64 where the C arithmetic can wrap, C functions that throw
Scheme exceptions become functions into `Except`, and the mutable port /
smob state becomes explicit state records.
-/

/-- Failure values thrown by the C layer (gdbscm_out_of_range_error,
gdbscm_memory_error, gdbscm_invalid_object_error, SCM_ASSERT_TYPE,
scm_misc_error).  Each carries the throwing subroutine and the
constant message text from the source. -/
inductive GuileErr where
  | out_of_range (subr msg : String)
  | memory_error (subr msg : String)
  | invalid_object (subr msg : String)
  | wrong_type (subr expected : String)
  | misc_error (subr msg : String)
deriving DecidableEq

/-! ## Chained symtab smobs (scm-symtab.c, scm-smob.c) -/

/-- A `symtab_smob` (scm-symtab.c): the chained_gdb_smob base contributes
the prev/next links of the per-objfile invalidation chain; `symtab` is the
native pointer (modelled as an abstract pointer value), `none` standing for
the NULL sentinel that marks an invalidated handle.  `id` is the smob's own
identity (its address), used to express the chain's link structure. -/
structure SymtabSmob where
  id : Nat
  symtab : Option Nat
  prev : Option Nat
  next : Option Nat
deriving DecidableEq

/-- Link consistency of a chain whose first element's `prev` must be
`prevId`: each node's `next` points to the following node, whose `prev`
points back (the shape gdbscm_add_objfile_ref maintains). -/
def chainWfAux (prevId : Option Nat) : List SymtabSmob → Bool
  | [] => true
  | s :: rest =>
    (s.prev == prevId)
      && (match rest with
          | [] => s.next == none
          | t :: _ => s.next == some t.id)
      && chainWfAux (some s.id) rest

/-- A well-formed per-objfile chain: head's `prev` is NULL and the
prev/next links trace the list. -/
def chainWf (chain : List SymtabSmob) : Bool :=
  chainWfAux none chain

/-- stscm_del_objfile_symtab (scm-symtab.c): the objfile teardown callback.
It walks the chain via the `next` links (here: the list), and for each smob
sets the native pointer to NULL and clears both links.  The smobs
themselves are not freed. -/
def stscm_del_objfile_symtab : List SymtabSmob → List SymtabSmob
  | [] => []
  | s :: rest =>
      { s with symtab := none, next := none, prev := none }
        :: stscm_del_objfile_symtab rest

/-- Objfile teardown for the symtab data key: run the registered cleanup
(stscm_del_objfile_symtab) on the chain head, after which the per-objfile
data slot itself is destroyed together with the objfile (the chain head is
gone).  Result: the surviving (invalidated) smob values, and the data slot
after teardown. -/
def objfile_free_symtab_data (chain : List SymtabSmob) :
    List SymtabSmob × Option (List SymtabSmob) :=
  (stscm_del_objfile_symtab chain, none)

/-- stscm_is_valid (scm-symtab.c): a symtab smob is valid while its native
pointer is non-NULL. -/
def stscm_is_valid (st_smob : SymtabSmob) : Bool :=
  st_smob.symtab.isSome

/-- stscm_get_valid_symtab_smob_arg_unsafe (scm-symtab.c), at the smob
level: throw a gdbscm_invalid_object_error if the smob is stale, otherwise
return it. -/
def stscm_get_valid_symtab_smob_arg_unsafe (st_smob : SymtabSmob)
    (func_name : String) : Except GuileErr SymtabSmob :=
  if stscm_is_valid st_smob then .ok st_smob
  else .error (.invalid_object func_name "invalid <gdb:symtab>")

/-- gdbscm_symtab_valid_p (scm-symtab.c): (symtab-valid? smob); does not
require validity, so it succeeds on stale handles. -/
def gdbscm_symtab_valid_p (st_smob : SymtabSmob) : Except GuileErr Bool :=
  .ok (stscm_is_valid st_smob)

/-- gdbscm_symtab_filename (scm-symtab.c): a representative accessor that
requires a valid handle; `names` maps a native symtab pointer to its
file name (symtab_to_filename_for_display). -/
def gdbscm_symtab_filename (names : Nat → String) (st_smob : SymtabSmob) :
    Except GuileErr String :=
  match stscm_get_valid_symtab_smob_arg_unsafe st_smob "gdbscm_symtab_filename" with
  | .error e => .error e
  | .ok st => .ok (names (st.symtab.getD 0))

/-- stscm_print_symtab_smob (scm-symtab.c): printing works on stale
handles too, rendering the invalid marker instead of dereferencing. -/
def stscm_print_symtab_smob (names : Nat → String) (st_smob : SymtabSmob) :
    String :=
  "#<gdb:symtab "
    ++ (match st_smob.symtab with
        | some st => names st
        | none => "<invalid>")
    ++ ">"

/-! ## Memory ports (scm-ports.c) -/

/-- The modulus of CORE_ADDR / ULONGEST arithmetic (64-bit addresses). -/
def coreAddrMod : Nat := 2 ^ 64

/-- 64-bit unsigned subtraction (both operands below `coreAddrMod`). -/
def usub64 (a b : Nat) : Nat :=
  if b ≤ a then a - b else a + coreAddrMod - b

/-- 64-bit unsigned sum of an unsigned value and a signed offset
(`current + offset` on CORE_ADDR/LONGEST operands). -/
def uaddOff64 (a : Nat) (off : Int) : Nat :=
  (((a : Int) + off) % (coreAddrMod : Int)).toNat

/-- min/max memory port buffer sizes (scm-ports.c). -/
def min_memory_port_buf_size : Nat := 1
def max_memory_port_buf_size : Nat := 4096

/-- default buffer sizes for a fresh memory port (scm-ports.c). -/
def default_read_buf_size : Nat := 16
def default_write_buf_size : Nat := 16

/-- Whether a port last performed buffered reading or writing
(scm_t_port.rw_active). -/
inductive RWActive where
  | neither
  | read
  | write
deriving DecidableEq

/-- Seek origins (SEEK_SET / SEEK_CUR / SEEK_END). -/
inductive Whence where
  | set
  | cur
  | fromEnd
deriving DecidableEq

/-- State of a memory port: the `ioscm_memory_port` record plus the
relevant scm_t_port buffer state.  Buffers are represented by their
counts/content: `readFilled` = read_end - read_buf, `readPos` =
read_pos - read_buf, `writeBuf` = the bytes in [write_buf, write_pos).
`putbackActive` models read_buf == putback_buf, with the saved buffer's
fill/pos counts alongside. -/
structure MemPort where
  start : Nat
  endAddr : Nat
  size : Nat
  current : Nat
  read_buf_size : Nat
  write_buf_size : Nat
  readFilled : Nat
  readPos : Nat
  writeBuf : List Nat
  putbackActive : Bool
  savedFilled : Nat
  savedPos : Nat
  rwActive : RWActive
deriving DecidableEq

/-- Invariants the C code maintains (comments in scm-ports.c: END of
0xff..ff disallowed; current always in [0, size]; buffer fills bounded by
the configured capacities, which stay within [1, 4096]). -/
def MemPort.Wf (p : MemPort) : Prop :=
  p.start ≤ p.endAddr ∧ p.endAddr < coreAddrMod - 1
    ∧ p.size = p.endAddr - p.start + 1 ∧ p.current ≤ p.size
    ∧ p.readPos ≤ p.readFilled ∧ p.readFilled ≤ p.read_buf_size
    ∧ p.writeBuf.length ≤ p.write_buf_size
    ∧ min_memory_port_buf_size ≤ p.read_buf_size
    ∧ p.read_buf_size ≤ max_memory_port_buf_size
    ∧ min_memory_port_buf_size ≤ p.write_buf_size
    ∧ p.write_buf_size ≤ max_memory_port_buf_size

instance (p : MemPort) : Decidable p.Wf := by
  unfold MemPort.Wf; infer_instance

/-- The backing resource (the debuggee's memory, accessed through
target_read_memory / target_write_memory): a byte per address, plus
failure oracles for reads and writes. -/
structure Target where
  mem : Nat → Nat
  writeFails : Nat → Nat → Bool
  readFails : Nat → Nat → Bool

/-- A successful target_write_memory: store `bytes` at `addr`. -/
def targetDoWrite (t : Target) (addr : Nat) (bytes : List Nat) : Target :=
  { t with
      mem := fun a =>
        if addr ≤ a ∧ a < addr + bytes.length then bytes.getD (a - addr) 0
        else t.mem a }

/-- target_write_memory: 0 on success (here `some` of the updated
target), nonzero on failure (`none`). -/
def target_write_memory (t : Target) (addr : Nat) (bytes : List Nat) :
    Option Target :=
  if t.writeFails addr bytes.length then none
  else some (targetDoWrite t addr bytes)

/-- ioscm_lseek_address (scm-ports.c): compute and install a new
`current`.  `none` models the zero (failure) return.  The C
over/underflow guards on SEEK_CUR are the 64-bit wrap tests written
there; SEEK_END supports only offset 0; a resulting position past `size`
fails. -/
def ioscm_lseek_address (p : MemPort) (offset : Int) (whence : Whence) :
    Option MemPort :=
  let newCurrent? : Option Nat :=
    match whence with
    | .cur =>
        let s := uaddOff64 p.current offset
        if offset < 0 ∧ s > p.current then none
        else if offset ≥ 0 ∧ s < p.current then none
        else some s
    | .set => some ((offset % (coreAddrMod : Int)).toNat)
    | .fromEnd => if offset = 0 then some p.size else none
  match newCurrent? with
  | none => none
  | some nc => if nc > p.size then none else some { p with current := nc }

/-- gdbscm_memory_port_flush (scm-ports.c): nothing buffered is a no-op;
a buffered count that does not fit below `size` throws out-of-range
before any state is touched (no partial write); otherwise the bytes go to
the backing store at start + current, current advances, the buffer
empties and the port leaves write mode. -/
def gdbscm_memory_port_flush (t : Target) (p : MemPort) :
    Except GuileErr (MemPort × Target) :=
  let to_write := p.writeBuf.length
  if to_write = 0 then .ok (p, t)
  else if to_write > usub64 p.size p.current then
    .error (.out_of_range "gdbscm_memory_port_flush"
      "writing beyond end of memory range")
  else
    match target_write_memory t (p.start + p.current) p.writeBuf with
    | none => .error (.memory_error "gdbscm_memory_port_flush"
        "error writing memory")
    | some t1 =>
        .ok ({ p with
                current := p.current + to_write,
                writeBuf := [],
                rwActive := .neither }, t1)

/-- gdbscm_memory_port_write (scm-ports.c): flush whatever is buffered
first, then bounds-check the new request the same way and issue it
unbuffered.  (On the out-of-range throw the C function has already
performed the flush; the port state observed afterwards is the flushed
state, which this embedding exposes through gdbscm_memory_port_flush.) -/
def gdbscm_memory_port_write (t : Target) (p : MemPort) (data : List Nat) :
    Except GuileErr (MemPort × Target) := do
  let (p1, t1) ← gdbscm_memory_port_flush t p
  if data.length > usub64 p1.size p1.current then
    .error (.out_of_range "gdbscm_memory_port_write"
      "writing beyond end of memory range")
  else
    match target_write_memory t1 (p1.start + p1.current) data with
    | none => .error (.memory_error "gdbscm_memory_port_write"
        "error writing memory")
    | some t2 => .ok ({ p1 with current := p1.current + data.length }, t2)

/-- gdbscm_memory_port_end_input (scm-ports.c): drop the read buffer and
move `current` back over the bytes that were buffered but not consumed
(plus the pushback `offset` Guile hands in).  The C code mutates read_pos
before a failing lseek throws; no theorem below inspects the read buffer
of a port after this error. -/
def gdbscm_memory_port_end_input (p : MemPort) (offset : Int) :
    Except GuileErr MemPort :=
  let remaining : Nat := p.readFilled - p.readPos
  if (offset < 0 ∧ uaddOff64 remaining offset > remaining)
      ∨ (offset > 0 ∧ uaddOff64 remaining offset < remaining) then
    .error (.out_of_range "gdbscm_memory_port_end_input"
      "overflow in offset calculation")
  else
    let offset1 : Int := offset + (remaining : Int)
    if offset1 > 0 then
      let p1 := { p with readPos := p.readFilled }
      match ioscm_lseek_address p1 (-offset1) .cur with
      | none => .error (.out_of_range "gdbscm_memory_port_end_input"
          "bad offset")
      | some p2 => .ok { p2 with rwActive := .neither }
    else .ok { p with rwActive := .neither }

/-- Guile 2.0's scm_end_input around the end_input method: restore the
saved buffer when pushback is active (passing the pushback remainder as
the offset), else offset 0. -/
def scm_end_input (p : MemPort) : Except GuileErr MemPort :=
  if p.putbackActive then
    let off : Nat := p.readFilled - p.readPos
    let p1 := { p with
                 readFilled := p.savedFilled,
                 readPos := p.savedPos,
                 putbackActive := false }
    gdbscm_memory_port_end_input p1 (off : Int)
  else gdbscm_memory_port_end_input p 0

/-- gdbscm_memory_port_seek (scm-ports.c).  Result: the reported
position, with the resulting port and target.  A non-trivial seek first
flushes (write mode) or ends input (read mode); the degenerate SEEK_CUR
with offset 0 only reports the position adjusted by the buffered byte
count, with the literal wrap/bounds tests of the source. -/
def gdbscm_memory_port_seek (t : Target) (p : MemPort) (offset : Int)
    (whence : Whence) : Except GuileErr (Nat × MemPort × Target) :=
  if p.rwActive = .write then
    if offset ≠ 0 ∨ whence ≠ .cur then do
      let (p1, t1) ← gdbscm_memory_port_flush t p
      match ioscm_lseek_address p1 offset whence with
      | none => .error (.out_of_range "gdbscm_memory_port_seek" "bad seek")
      | some p2 => .ok (p2.current, p2, t1)
    else
      let delta := p.writeBuf.length
      let s := (p.current + delta) % coreAddrMod
      if s < p.current ∨ s > (p.size + 1) % coreAddrMod then
        .error (.out_of_range "gdbscm_memory_port_seek" "bad seek")
      else .ok (s, p, t)
  else if p.rwActive = .read then
    if offset ≠ 0 ∨ whence ≠ .cur then do
      let p1 ← scm_end_input p
      match ioscm_lseek_address p1 offset whence with
      | none => .error (.out_of_range "gdbscm_memory_port_seek" "bad seek")
      | some p2 => .ok (p2.current, p2, t)
    else
      let remaining := p.readFilled - p.readPos
      let r := usub64 p.current remaining
      if r > p.current ∨ r < p.start then
        .error (.out_of_range "gdbscm_memory_port_seek" "bad seek")
      else if p.putbackActive then
        let saved_remaining := p.savedFilled - p.savedPos
        let r2 := usub64 r saved_remaining
        if r2 > r ∨ r2 < p.start then
          .error (.out_of_range "gdbscm_memory_port_seek" "bad seek")
        else .ok (r2, p, t)
      else .ok (r, p, t)
  else
    match ioscm_lseek_address p offset whence with
    | none => .error (.out_of_range "gdbscm_memory_port_seek" "bad seek")
    | some p2 => .ok (p2.current, p2, t)

/-- gdbscm_memory_port_fill_input (scm-ports.c): `none` in the first
component models the EOF return; otherwise the first freshly buffered
byte is returned with the refilled port. -/
def gdbscm_memory_port_fill_input (t : Target) (p : MemPort) :
    Except GuileErr (Option Nat × MemPort) :=
  if p.current ≥ p.size then .ok (none, p)
  else
    let to_read := min p.read_buf_size (p.size - p.current)
    if t.readFails (p.start + p.current) to_read then
      .error (.memory_error "gdbscm_memory_port_fill_input"
        "error reading memory")
    else
      .ok (some (t.mem (p.start + p.current)),
        { p with
            readPos := 0,
            readFilled := to_read,
            current := p.current + to_read })

/-- Guile 2.0's scm_lfwrite around the write method: end any pending
read, invoke the port's write method, then mark the port write-active
(memory ports set rw_random). -/
def scm_lfwrite (t : Target) (p : MemPort) (data : List Nat) :
    Except GuileErr (MemPort × Target) := do
  let p0 ← if p.rwActive = .read then scm_end_input p else .ok p
  let (p1, t1) ← gdbscm_memory_port_write t p0 data
  .ok ({ p1 with rwActive := .write }, t1)

/-- ioscm_parse_mode_bits (scm-ports.c): first character must be r or w,
every later character must be b or +; anything else is the out-of-range
"bad mode string" error. -/
def ioscm_parse_mode_bits (func_name : String) (mode : String) :
    Except GuileErr Unit :=
  match mode.data with
  | [] => .error (.out_of_range func_name "bad mode string")
  | c :: rest =>
      if c ≠ 'r' ∧ c ≠ 'w' then
        .error (.out_of_range func_name "bad mode string")
      else if rest.all (fun ch => ch = 'b' ∨ ch = '+') then .ok ()
      else .error (.out_of_range func_name "bad mode string")

/-- ioscm_init_memory_port (scm-ports.c): fresh port over [start, end],
current 0, default buffer sizes, empty buffers.  (The C asserts
start ≤ end < 0xff..ff; all callers below establish it.) -/
def ioscm_init_memory_port (start endAddr : Nat) : MemPort :=
  { start := start
    endAddr := endAddr
    size := endAddr - start + 1
    current := 0
    read_buf_size := default_read_buf_size
    write_buf_size := default_write_buf_size
    readFilled := 0
    readPos := 0
    writeBuf := []
    putbackActive := false
    savedFilled := 0
    savedPos := 0
    rwActive := .neither }

/-- gdbscm_open_memory (scm-ports.c), after keyword parsing: mode
defaults to "r", start to 0; a start of all-ones is rejected; with an
explicit size, zero size, a wrapping start+size, and a resulting end of
all-ones are rejected in that order; without a size the range runs to
all-ones minus one.  Mode is validated after the range checks. -/
def gdbscm_open_memory (modeOpt : Option String) (startOpt : Option Nat)
    (sizeOpt : Option Nat) : Except GuileErr MemPort :=
  let mode := modeOpt.getD "r"
  let start := startOpt.getD 0
  if start = coreAddrMod - 1 then
    .error (.out_of_range "gdbscm_open_memory"
      "start address of 0xff..ff not allowed")
  else
    match sizeOpt with
    | some size =>
        if size = 0 then
          .error (.out_of_range "gdbscm_open_memory" "zero size")
        else if (start + size) % coreAddrMod < start then
          .error (.out_of_range "gdbscm_open_memory" "start+size overflows")
        else
          let e := (start + size - 1) % coreAddrMod
          if e = coreAddrMod - 1 then
            .error (.out_of_range "gdbscm_open_memory"
              "end address of 0xff..ff not allowed")
          else do
            let _ ← ioscm_parse_mode_bits "gdbscm_open_memory" mode
            .ok (ioscm_init_memory_port start e)
    | none => do
        let _ ← ioscm_parse_mode_bits "gdbscm_open_memory" mode
        .ok (ioscm_init_memory_port start (coreAddrMod - 1 - 1))

/-- ioscm_reinit_memory_port (scm-ports.c): reject a change of either
buffer size while that buffer is non-empty (read: read_end ≠ read_buf;
write: write_pos ≠ write_buf); then reallocate only the buffers whose
size actually changed. -/
def ioscm_reinit_memory_port (p : MemPort)
    (read_buf_size write_buf_size : Nat) (func_name : String) :
    Except GuileErr MemPort :=
  if read_buf_size ≠ p.read_buf_size ∧ p.readFilled ≠ 0 then
    .error (.misc_error func_name "read buffer not empty: ~a")
  else if write_buf_size ≠ p.write_buf_size ∧ p.writeBuf ≠ [] then
    .error (.misc_error func_name "write buffer not empty: ~a")
  else
    let p1 :=
      if read_buf_size ≠ p.read_buf_size then
        { p with
            read_buf_size := read_buf_size,
            readFilled := 0,
            readPos := 0 }
      else p
    let p2 :=
      if write_buf_size ≠ p1.write_buf_size then
        { p1 with write_buf_size := write_buf_size, writeBuf := [] }
      else p1
    .ok p2

/-- Error message for out-of-range buffer sizes (out_of_range_buf_size,
built in gdbscm_initialize_ports as "size not between %u - %u"). -/
def out_of_range_buf_size : String := "size not between 1 - 4096"

/-- gdbscm_set_memory_port_read_buffer_size_x (scm-ports.c); the size
argument is a Scheme integer, hence `Int`. -/
def gdbscm_set_memory_port_read_buffer_size_x (p : MemPort) (size : Int) :
    Except GuileErr MemPort :=
  if ¬ ((min_memory_port_buf_size : Int) ≤ size
        ∧ size ≤ (max_memory_port_buf_size : Int)) then
    .error (.out_of_range "gdbscm_set_memory_port_read_buffer_size_x"
      out_of_range_buf_size)
  else
    ioscm_reinit_memory_port p size.toNat p.write_buf_size
      "gdbscm_set_memory_port_read_buffer_size_x"

/-- gdbscm_set_memory_port_write_buffer_size_x (scm-ports.c). -/
def gdbscm_set_memory_port_write_buffer_size_x (p : MemPort) (size : Int) :
    Except GuileErr MemPort :=
  if ¬ ((min_memory_port_buf_size : Int) ≤ size
        ∧ size ≤ (max_memory_port_buf_size : Int)) then
    .error (.out_of_range "gdbscm_set_memory_port_write_buffer_size_x"
      out_of_range_buf_size)
  else
    ioscm_reinit_memory_port p p.read_buf_size size.toNat
      "gdbscm_set_memory_port_write_buffer_size_x"

/-! ## Scheme values, smob conversion hooks, exceptions, iterators
(scm-smob.c, scm-exception.c, scm-iterator.c) -/

/-- Scheme values, as far as this layer distinguishes them.  `excpV` is
the <gdb:exception> smob (key and args), `iterV` the <gdb:iterator> smob
(object, progress, next! procedure), `smobV k d` any other gdb smob with
tag `k + 3` and opaque payload `d` (tags 1 and 2 are the exception and
iterator tags; the `+ 3` keeps the generic tags disjoint from them).
`procV` is a procedure, identified by an index into the call
environment. -/
inductive SCMV where
  | boolV (b : Bool)
  | intV (n : Int)
  | strV (s : String)
  | symV (s : String)
  | nullV
  | pairV (car cdr : SCMV)
  | unspecifiedV
  | smobV (k : Nat) (payload : Nat)
  | excpV (key args : SCMV)
  | iterV (object progress next : SCMV)
  | procV (id : Nat)
deriving DecidableEq

/-- How a call into Scheme ends: normal return, or a throw with the
standard key/args pair. -/
inductive CallResult where
  | ret (v : SCMV)
  | thrown (key args : SCMV)

/-- Build a proper Scheme list (scm_list_N). -/
def scmList (xs : List SCMV) : SCMV :=
  xs.foldr .pairV .nullV

/-- The smob tags: gdbscm_make_smob_type allocates one per kind and
registers it.  Exception and iterator smobs have their own
constructors, so their tags are the fixed values 1 and 2; every other
gdb smob `smobV k _` has tag `k + 3`. -/
def exception_smob_tag : Nat := 1

def iterator_smob_tag : Nat := 2

/-- The tag of a value, when it is a smob (SCM_TYP16 on a smob cell). -/
def smobTag : SCMV → Option Nat
  | .smobV k _ => some (k + 3)
  | .excpV _ _ => some exception_smob_tag
  | .iterV _ _ _ => some iterator_smob_tag
  | _ => none

/-- SCM_SMOB_PREDICATE: the value is a smob of the given tag. -/
def smobPredicate (tag : Nat) (v : SCMV) : Bool :=
  smobTag v = some tag

/-- The process-wide Scheme state these functions touch: the call
behaviour of every procedure (by id), the *smob->scm* and *scm->smob*
variables (each holding #f or a procedure), and the set of registered
gdb smob tags (registered_gsmobs). -/
structure Ctx where
  procs : Nat → SCMV → CallResult
  scm_from_smob_var : SCMV
  scm_to_smob_var : SCMV
  registered : List Nat

/-- gdbscm_is_false: the value is #f. -/
def gdbscm_is_false (v : SCMV) : Bool :=
  v = .boolV false

/-- Modelled from the spec: gdbscm_is_procedure (guile.c helpers, not
under src/) tests that a value is callable. -/
def gdbscm_is_procedure (v : SCMV) : Bool :=
  match v with
  | .procV _ => true
  | _ => false

/-- gdbscm_is_gsmob (scm-smob.c): the value is a smob whose tag is in
the registered_gsmobs table. -/
def gdbscm_is_gsmob (ctx : Ctx) (v : SCMV) : Bool :=
  match smobTag v with
  | some t => ctx.registered.contains t
  | none => false

/-- The Guile throw raised by SCM_ASSERT_TYPE / scm_wrong_type_arg_msg,
as a <gdb:exception>-shaped value: key wrong-type-arg with the
subroutine, argument position, offending value and expected type.
(Guile's own args formatting is abstracted to this quadruple.) -/
def scm_wrong_type_arg (subr : String) (argPos : Nat) (bad : SCMV)
    (expected : String) : SCMV :=
  .excpV (.symV "wrong-type-arg")
    (scmList [.strV subr, .intV argPos, bad, .strV expected])

/-- Modelled from the spec: gdbscm_safe_call_1 (guile.c, not under src/)
calls a one-argument Scheme procedure and captures any throw, returning
it as a <gdb:exception> value instead of propagating it.  Applying a
non-procedure is itself a thrown wrong-type failure, likewise
captured. -/
def gdbscm_safe_call_1 (ctx : Ctx) (f arg : SCMV) : SCMV :=
  match f with
  | .procV i =>
      match ctx.procs i arg with
      | .ret v => v
      | .thrown k a => .excpV k a
  | _ => .excpV (.symV "wrong-type-arg") (scmList [f])

/-- gdbscm_make_exception (scm-exception.c): build the raw
<gdb:exception> smob from key and args.  Note that, unlike every other
smob constructor surfaced to script, the result is not passed through
the *smob->scm* conversion hook (scm-exception.c explicitly exempts
<gdb:exception> from the conversion protocol). -/
def gdbscm_make_exception (key args : SCMV) : SCMV :=
  .excpV key args

/-- gdbscm_is_exception (scm-exception.c): SMOB_PREDICATE on the
exception tag. -/
def gdbscm_is_exception (v : SCMV) : Bool :=
  smobPredicate exception_smob_tag v

/-- gdbscm_exception_key (scm-exception.c): SCM_ASSERT_TYPE that the
argument is a raw <gdb:exception> smob (no *scm->smob* conversion is
attempted), then read the key field. -/
def gdbscm_exception_key (self : SCMV) : Except SCMV SCMV :=
  match self with
  | .excpV key _ => .ok key
  | _ => .error (scm_wrong_type_arg "gdbscm_exception_key" 1 self
      "gdb:exception")

/-- gdbscm_exception_args (scm-exception.c): as gdbscm_exception_key,
for the args field. -/
def gdbscm_exception_args (self : SCMV) : Except SCMV SCMV :=
  match self with
  | .excpV _ args => .ok args
  | _ => .error (scm_wrong_type_arg "gdbscm_exception_args" 1 self
      "gdb:exception")

/-- gdbscm_make_error_scm (scm-exception.c): exception with args
(subr message args data). -/
def gdbscm_make_error_scm (key subr message args data : SCMV) : SCMV :=
  gdbscm_make_exception key (scmList [subr, message, args, data])

/-- gdbscm_make_error (scm-exception.c): C-string front end; NULL
subr/message become #f. -/
def gdbscm_make_error (key : SCMV) (subr message : Option String)
    (args data : SCMV) : SCMV :=
  gdbscm_make_error_scm key
    (match subr with | none => .boolV false | some s => .strV s)
    (match message with | none => .boolV false | some s => .strV s)
    args data

/-- gdbscm_make_arg_error (scm-exception.c): message text generated at
construction ("%s in position %d: ~S" or "%s: ~S"). -/
def gdbscm_make_arg_error (key : SCMV) (subr : Option String)
    (argPos : Nat) (bad : SCMV) (error : String) : SCMV :=
  let msg :=
    if argPos > 0 then
      error ++ " in position " ++ toString argPos ++ ": ~S"
    else error ++ ": ~S"
  gdbscm_make_error key subr (some msg) (scmList [bad]) (scmList [bad])

/-- gdbscm_make_out_of_range_error (scm-exception.c): key
out-of-range. -/
def gdbscm_make_out_of_range_error (subr : Option String) (argPos : Nat)
    (bad : SCMV) (error : String) : SCMV :=
  gdbscm_make_arg_error (.symV "out-of-range") subr argPos bad error

/-- gdbscm_make_invalid_object_error (scm-exception.c): key
gdb:invalid-object-error. -/
def gdbscm_make_invalid_object_error (subr : Option String) (argPos : Nat)
    (bad : SCMV) (error : String) : SCMV :=
  gdbscm_make_arg_error (.symV "gdb:invalid-object-error") subr argPos
    bad error

/-- gdbscm_scm_from_gsmob_safe (scm-smob.c): the outbound conversion;
identity when *smob->scm* is #f, else whatever the hook call yields
(a throw captured as an exception value). -/
def gdbscm_scm_from_gsmob_safe (ctx : Ctx) (smob : SCMV) : SCMV :=
  if gdbscm_is_false ctx.scm_from_smob_var then smob
  else gdbscm_safe_call_1 ctx ctx.scm_from_smob_var smob

/-- gdbscm_scm_from_gsmob_unsafe (scm-smob.c): re-raise an exception
outcome as a script-level throw (`Except.error`). -/
def gdbscm_scm_from_gsmob_unsafe (ctx : Ctx) (smob : SCMV) :
    Except SCMV SCMV :=
  let result := gdbscm_scm_from_gsmob_safe ctx smob
  if gdbscm_is_exception result then .error result
  else .ok result

/-- gdbscm_scm_to_gsmob_safe (scm-smob.c): the inbound conversion.
Tag 0 is the wildcard (any registered gsmob).  A value already of the
requested kind is returned unchanged; with the *scm->smob* hook unset
the result is #f; otherwise the hook is called, and its result is
passed through when it is #f, an exception, or of the requested kind,
while any other result becomes the out-of-range exception built by
gdbscm_make_out_of_range_error. -/
def gdbscm_scm_to_gsmob_safe (ctx : Ctx) (scm : SCMV) (tag : Nat) : SCMV :=
  if (if tag ≠ 0 then smobPredicate tag scm else gdbscm_is_gsmob ctx scm) then
    scm
  else if gdbscm_is_false ctx.scm_to_smob_var then .boolV false
  else
    let result := gdbscm_safe_call_1 ctx ctx.scm_to_smob_var scm
    if gdbscm_is_false result then .boolV false
    else if gdbscm_is_exception result then result
    else if (if tag ≠ 0 then smobPredicate tag result
             else gdbscm_is_gsmob ctx result) then result
    else
      gdbscm_make_out_of_range_error none 0 result
        "Result of *scm->smob* must be requested gsmob or #f"

/-- gdbscm_scm_to_gsmob_unsafe (scm-smob.c): re-raise an exception
outcome as a script-level throw. -/
def gdbscm_scm_to_gsmob_unsafe (ctx : Ctx) (scm : SCMV) (tag : Nat) :
    Except SCMV SCMV :=
  let result := gdbscm_scm_to_gsmob_safe ctx scm tag
  if gdbscm_is_exception result then .error result
  else .ok result

/-! ### Exception bridge from GDB internal exceptions
(scm-exception.c) -/

/-- The host's internal exception record (struct gdb_exception): a
reason code (RETURN_QUIT = -2 for a user interrupt, RETURN_ERROR = -1
otherwise), an error code from enum errors, and the formatted message
text. -/
structure gdb_exception where
  reason : Int
  error : Nat
  message : String
deriving DecidableEq

/-- RETURN_QUIT from gdb's enum return_reason. -/
def RETURN_QUIT : Int := -2

/-- MEMORY_ERROR from gdb's enum errors; only its identity (equality
with the record's error code) matters here. -/
def MEMORY_ERROR : Nat := 9

/-- The platform interrupt signal number carried on the signal key. -/
def SIGINT : Nat := 2

/-- gdbscm_scm_from_gdb_exception (scm-exception.c): a user interrupt
(RETURN_QUIT) maps to the fixed key `signal` with data (SIGINT),
matching Guile's top-repl convention; otherwise a MEMORY_ERROR maps to
gdb:memory-error and everything else to gdb:error, with the "~A"
format and the record's message as its single argument. -/
def gdbscm_scm_from_gdb_exception (exception : gdb_exception) : SCMV :=
  if exception.reason = RETURN_QUIT then
    gdbscm_make_error (.symV "signal") none (some "User interrupt")
      .nullV (scmList [.intV SIGINT])
  else
    gdbscm_make_error
      (if exception.error = MEMORY_ERROR then .symV "gdb:memory-error"
       else .symV "gdb:error")
      none (some "~A") (scmList [.strV exception.message]) (.boolV false)

/-! ### Iterators (scm-iterator.c) -/

/-- itscm_make_iterator_smob (scm-iterator.c): build the raw iterator
smob; no validation, no exceptions. -/
def itscm_make_iterator_smob (object progress next : SCMV) : SCMV :=
  .iterV object progress next

/-- itscm_is_iterator (scm-iterator.c). -/
def itscm_is_iterator (v : SCMV) : Bool :=
  smobPredicate iterator_smob_tag v

/-- gdbscm_make_iterator (scm-iterator.c): SCM_ASSERT_TYPE that next is
a procedure, build the smob, pass it through the outbound conversion
(throwing on a conversion failure). -/
def gdbscm_make_iterator (ctx : Ctx) (object progress next : SCMV) :
    Except SCMV SCMV :=
  if ¬ gdbscm_is_procedure next then
    .error (scm_wrong_type_arg "gdbscm_make_iterator" 3 next "procedure")
  else
    gdbscm_scm_from_gsmob_unsafe ctx
      (itscm_make_iterator_smob object progress next)

/-- itscm_scm_to_iterator_gsmob (scm-iterator.c). -/
def itscm_scm_to_iterator_gsmob (ctx : Ctx) (scm : SCMV) : SCMV :=
  gdbscm_scm_to_gsmob_safe ctx scm iterator_smob_tag

/-- itscm_get_iterator_arg_unsafe (scm-iterator.c): inbound-convert,
re-raise a conversion exception, then SCM_ASSERT_TYPE the result is an
iterator smob. -/
def itscm_get_iterator_arg_unsafe (ctx : Ctx) (self : SCMV)
    (argPos : Nat) (func_name : String) : Except SCMV SCMV :=
  let i_scm := itscm_scm_to_iterator_gsmob ctx self
  if gdbscm_is_exception i_scm then .error i_scm
  else if ¬ itscm_is_iterator i_scm then
    .error (scm_wrong_type_arg func_name argPos self "gdb:iterator")
  else .ok i_scm

/-- The next_x field of an iterator smob (SCM_SMOB_DATA access; only
reached on iterator smobs). -/
def iterNextProc : SCMV → SCMV
  | .iterV _ _ next => next
  | _ => .unspecifiedV

/-- The object field of an iterator smob. -/
def iterObject : SCMV → SCMV
  | .iterV object _ _ => object
  | _ => .unspecifiedV

/-- The progress field of an iterator smob. -/
def iterProgress : SCMV → SCMV
  | .iterV _ progress _ => progress
  | _ => .unspecifiedV

/-- gdbscm_iterator_object (scm-iterator.c). -/
def gdbscm_iterator_object (ctx : Ctx) (self : SCMV) : Except SCMV SCMV := do
  let i_scm ← itscm_get_iterator_arg_unsafe ctx self 1
    "gdbscm_iterator_object"
  .ok (iterObject i_scm)

/-- gdbscm_iterator_progress (scm-iterator.c). -/
def gdbscm_iterator_progress (ctx : Ctx) (self : SCMV) :
    Except SCMV SCMV := do
  let i_scm ← itscm_get_iterator_arg_unsafe ctx self 1
    "gdbscm_iterator_progress"
  .ok (iterProgress i_scm)

/-- gdbscm_iterator_next_x (scm-iterator.c): recover the iterator smob
from the argument, then call its next! procedure with SELF (the
original argument) as the single argument, returning the call's result
verbatim (a throw having been captured as an exception value by the
safe call). -/
def gdbscm_iterator_next_x (ctx : Ctx) (self : SCMV) :
    Except SCMV SCMV := do
  let i_scm ← itscm_get_iterator_arg_unsafe ctx self 1
    "gdbscm_iterator_next_x"
  .ok (gdbscm_safe_call_1 ctx (iterNextProc i_scm) self)

/-! ## Claim-specific definitions and example states -/

/-- Conclusion of claim C1 for a given chain: after teardown the data
slot is cleared, no handle was freed, and every handle has a NULL native
pointer, cleared links, a failing validity-gated accessor, while
remaining a legal value (valid? and printing still work). -/
def C1Concl (chain : List SymtabSmob) (names : Nat → String)
    (func_name : String) : Prop :=
  (objfile_free_symtab_data chain).2 = none
  ∧ (stscm_del_objfile_symtab chain).length = chain.length
  ∧ ∀ s ∈ stscm_del_objfile_symtab chain,
      s.symtab = none ∧ s.prev = none ∧ s.next = none
      ∧ stscm_get_valid_symtab_smob_arg_unsafe s func_name
          = .error (.invalid_object func_name "invalid <gdb:symtab>")
      ∧ gdbscm_symtab_valid_p s = .ok false
      ∧ gdbscm_symtab_filename names s
          = .error (.invalid_object "gdbscm_symtab_filename"
              "invalid <gdb:symtab>")
      ∧ stscm_print_symtab_smob names s = "#<gdb:symtab <invalid>>"

/-- A two-handle chain for objfile 0, as gdbscm_add_objfile_ref builds
it (second handle added first). -/
def c1chain : List SymtabSmob :=
  [⟨0, some 100, none, some 1⟩, ⟨1, some 101, some 0, none⟩]

/-- Conclusion of claim C2, general part: flush is atomic w.r.t. the
port position (the out-of-range throw happens before any mutation, so
an error leaves the port exactly as it was), and a direct write
flushes, then applies the same bounds check. -/
def C2Concl (t : Target) (p : MemPort) : Prop :=
  (p.size - p.current < p.writeBuf.length →
    gdbscm_memory_port_flush t p
      = .error (.out_of_range "gdbscm_memory_port_flush"
          "writing beyond end of memory range"))
  ∧ (p.writeBuf = [] → gdbscm_memory_port_flush t p = .ok (p, t))
  ∧ (p.writeBuf ≠ [] → p.writeBuf.length ≤ p.size - p.current →
      t.writeFails (p.start + p.current) p.writeBuf.length = false →
      gdbscm_memory_port_flush t p
        = .ok ({ p with
                  current := p.current + p.writeBuf.length,
                  writeBuf := [],
                  rwActive := .neither },
               targetDoWrite t (p.start + p.current) p.writeBuf))
  ∧ ∀ data : List Nat,
      (p.writeBuf = [] → p.size - p.current < data.length →
        gdbscm_memory_port_write t p data
          = .error (.out_of_range "gdbscm_memory_port_write"
              "writing beyond end of memory range"))
      ∧ (p.writeBuf = [] → data.length ≤ p.size - p.current →
          t.writeFails (p.start + p.current) data.length = false →
          gdbscm_memory_port_write t p data
            = .ok ({ p with current := p.current + data.length },
                   targetDoWrite t (p.start + p.current) data))
      ∧ (p.size - p.current < p.writeBuf.length →
          gdbscm_memory_port_write t p data
            = .error (.out_of_range "gdbscm_memory_port_flush"
                "writing beyond end of memory range"))

/-- Conclusion of claim C2, concrete part: on a port opened with size N,
writing exactly N bytes succeeds and advances current to N; writing N+1
bytes fails out-of-range with current left at 0 (the error is raised
before any mutation). -/
def C2Open (t : Target) (s N : Nat) (data1 data2 : List Nat) : Prop :=
  gdbscm_open_memory (some "r") (some s) (some N)
      = .ok (ioscm_init_memory_port s (s + N - 1))
  ∧ (ioscm_init_memory_port s (s + N - 1)).size = N
  ∧ (ioscm_init_memory_port s (s + N - 1)).current = 0
  ∧ (gdbscm_memory_port_write t (ioscm_init_memory_port s (s + N - 1))
        data1).map (fun r => r.1.current) = .ok N
  ∧ gdbscm_memory_port_write t (ioscm_init_memory_port s (s + N - 1)) data2
      = .error (.out_of_range "gdbscm_memory_port_write"
          "writing beyond end of memory range")

/-- A concrete target whose writes and reads always succeed. -/
def okTarget : Target :=
  { mem := fun _ => 0, writeFails := fun _ _ => false,
    readFails := fun _ _ => false }

/-- A concrete port state with three bytes pending in its write
buffer. -/
def c2port : MemPort :=
  { ioscm_init_memory_port 0x1000 0x1003 with
      writeBuf := [7, 8, 9], rwActive := .write }

deriving instance DecidableEq for Except

/-- Conclusion of claim C3 as amended: with a valid mode and an
explicit size, opening fails with a distinct out-of-range error for an
all-ones start, a zero size, and a wrapping start+size (the latter also
covering every input whose end would be all-ones), and succeeds
otherwise with end = start + size - 1 and current = 0. -/
def C3Concl (mode : String) (s n : Nat) : Prop :=
  (s = coreAddrMod - 1 →
    gdbscm_open_memory (some mode) (some s) (some n)
      = .error (.out_of_range "gdbscm_open_memory"
          "start address of 0xff..ff not allowed"))
  ∧ (s ≠ coreAddrMod - 1 → n = 0 →
      gdbscm_open_memory (some mode) (some s) (some n)
        = .error (.out_of_range "gdbscm_open_memory" "zero size"))
  ∧ (s ≠ coreAddrMod - 1 → n ≠ 0 → coreAddrMod ≤ s + n →
      gdbscm_open_memory (some mode) (some s) (some n)
        = .error (.out_of_range "gdbscm_open_memory"
            "start+size overflows"))
  ∧ (n ≠ 0 → s + n < coreAddrMod →
      ioscm_parse_mode_bits "gdbscm_open_memory" mode = .ok () →
      gdbscm_open_memory (some mode) (some s) (some n)
          = .ok (ioscm_init_memory_port s (s + n - 1))
        ∧ (ioscm_init_memory_port s (s + n - 1)).endAddr = s + n - 1
        ∧ (ioscm_init_memory_port s (s + n - 1)).current = 0)
  ∧ (GuileErr.out_of_range "gdbscm_open_memory"
        "start address of 0xff..ff not allowed"
      ≠ .out_of_range "gdbscm_open_memory" "zero size")
  ∧ (GuileErr.out_of_range "gdbscm_open_memory"
        "start address of 0xff..ff not allowed"
      ≠ .out_of_range "gdbscm_open_memory" "start+size overflows")
  ∧ (GuileErr.out_of_range "gdbscm_open_memory" "zero size"
      ≠ .out_of_range "gdbscm_open_memory" "start+size overflows")

/-- The port of the C4 scenario: open(mode "r+", start 0x1000,
size 4). -/
def c4port0 : MemPort := ioscm_init_memory_port 0x1000 0x1003

/-- The port after the scenario's first write of three bytes went to
the backing store (the port-layer write path is unbuffered: the write
method flushes and writes directly). -/
def c4port1 : MemPort := { c4port0 with current := 3, rwActive := .write }

/-- A variant of the scenario state in which the three written bytes
are still pending in the write buffer instead. -/
def c4portBuf : MemPort :=
  { c4port0 with writeBuf := [10, 20, 30], rwActive := .write }

/-- A context whose *scm->smob* hook (procedure 0) answers every query
with the smob of tag 5 (payload 7); *smob->scm* is unset. -/
def c5ctx : Ctx :=
  { procs := fun i _ =>
      if i = 0 then .ret (.smobV 2 7) else .ret (.boolV false)
    scm_from_smob_var := .boolV false
    scm_to_smob_var := .procV 0
    registered := [exception_smob_tag, iterator_smob_tag, 5, 102] }

/-- Conclusion of claim C5 as amended: the four outcomes of the inbound
conversion, and the unsafe variant re-raising exactly the exception
outcomes. -/
def C5Concl (ctx : Ctx) (v : SCMV) (tag : Nat) : Prop :=
  ((if tag ≠ 0 then smobPredicate tag v else gdbscm_is_gsmob ctx v) = true →
    gdbscm_scm_to_gsmob_safe ctx v tag = v)
  ∧ ((if tag ≠ 0 then smobPredicate tag v else gdbscm_is_gsmob ctx v)
        = false →
      ctx.scm_to_smob_var = .boolV false →
      gdbscm_scm_to_gsmob_safe ctx v tag = .boolV false)
  ∧ (∀ i,
      (if tag ≠ 0 then smobPredicate tag v else gdbscm_is_gsmob ctx v)
          = false →
      ctx.scm_to_smob_var = .procV i →
      (gdbscm_safe_call_1 ctx (.procV i) v = .boolV false →
        gdbscm_scm_to_gsmob_safe ctx v tag = .boolV false)
      ∧ (gdbscm_is_exception (gdbscm_safe_call_1 ctx (.procV i) v) = true →
          gdbscm_scm_to_gsmob_safe ctx v tag
            = gdbscm_safe_call_1 ctx (.procV i) v)
      ∧ (∀ k a, ctx.procs i v = .thrown k a →
          gdbscm_scm_to_gsmob_safe ctx v tag = .excpV k a)
      ∧ (gdbscm_safe_call_1 ctx (.procV i) v ≠ .boolV false →
          gdbscm_is_exception (gdbscm_safe_call_1 ctx (.procV i) v)
            = false →
          (if tag ≠ 0 then smobPredicate tag (gdbscm_safe_call_1 ctx (.procV i) v)
           else gdbscm_is_gsmob ctx (gdbscm_safe_call_1 ctx (.procV i) v))
            = true →
          gdbscm_scm_to_gsmob_safe ctx v tag
            = gdbscm_safe_call_1 ctx (.procV i) v)
      ∧ (gdbscm_safe_call_1 ctx (.procV i) v ≠ .boolV false →
          gdbscm_is_exception (gdbscm_safe_call_1 ctx (.procV i) v)
            = false →
          (if tag ≠ 0 then smobPredicate tag (gdbscm_safe_call_1 ctx (.procV i) v)
           else gdbscm_is_gsmob ctx (gdbscm_safe_call_1 ctx (.procV i) v))
            = false →
          gdbscm_scm_to_gsmob_safe ctx v tag
              = gdbscm_make_out_of_range_error none 0
                  (gdbscm_safe_call_1 ctx (.procV i) v)
                  "Result of *scm->smob* must be requested gsmob or #f"
            ∧ gdbscm_is_exception
                (gdbscm_make_out_of_range_error none 0
                  (gdbscm_safe_call_1 ctx (.procV i) v)
                  "Result of *scm->smob* must be requested gsmob or #f")
              = true))
  ∧ (gdbscm_is_exception (gdbscm_scm_to_gsmob_safe ctx v tag) = true →
      gdbscm_scm_to_gsmob_unsafe ctx v tag
        = .error (gdbscm_scm_to_gsmob_safe ctx v tag))
  ∧ (gdbscm_is_exception (gdbscm_scm_to_gsmob_safe ctx v tag) = false →
      gdbscm_scm_to_gsmob_unsafe ctx v tag
        = .ok (gdbscm_scm_to_gsmob_safe ctx v tag))

/-- Conclusion of claim C6: the conversion of a host exception record is
a total function of its reason and error codes — RETURN_QUIT gives the
fixed signal key with SIGINT as data; otherwise MEMORY_ERROR gives
gdb:memory-error, anything else gdb:error, both with the formatted
message as the sole message argument. -/
def C6Concl (e : gdb_exception) : Prop :=
  (e.reason = RETURN_QUIT →
    gdbscm_scm_from_gdb_exception e
      = .excpV (.symV "signal")
          (scmList [.boolV false, .strV "User interrupt", .nullV,
            scmList [.intV SIGINT]]))
  ∧ (e.reason ≠ RETURN_QUIT → e.error = MEMORY_ERROR →
      gdbscm_scm_from_gdb_exception e
        = .excpV (.symV "gdb:memory-error")
            (scmList [.boolV false, .strV "~A",
              scmList [.strV e.message], .boolV false]))
  ∧ (e.reason ≠ RETURN_QUIT → e.error ≠ MEMORY_ERROR →
      gdbscm_scm_from_gdb_exception e
        = .excpV (.symV "gdb:error")
            (scmList [.boolV false, .strV "~A",
              scmList [.strV e.message], .boolV false]))

/-- Conclusion of claim C7: buffer-size changes are rejected out of
range or while the respective buffer holds data; resizing to the
current capacity is always a no-op; a successful resize leaves the
other buffer untouched. -/
def C7Concl (p : MemPort) (c : Int) : Prop :=
  (¬ ((min_memory_port_buf_size : Int) ≤ c
        ∧ c ≤ (max_memory_port_buf_size : Int)) →
    gdbscm_set_memory_port_read_buffer_size_x p c
        = .error (.out_of_range "gdbscm_set_memory_port_read_buffer_size_x"
            out_of_range_buf_size)
      ∧ gdbscm_set_memory_port_write_buffer_size_x p c
        = .error (.out_of_range "gdbscm_set_memory_port_write_buffer_size_x"
            out_of_range_buf_size))
  ∧ (c = (p.read_buf_size : Int) →
      gdbscm_set_memory_port_read_buffer_size_x p c = .ok p)
  ∧ (c = (p.write_buf_size : Int) →
      gdbscm_set_memory_port_write_buffer_size_x p c = .ok p)
  ∧ ((min_memory_port_buf_size : Int) ≤ c →
      c ≤ (max_memory_port_buf_size : Int) →
      c.toNat ≠ p.read_buf_size → p.readPos < p.readFilled →
      gdbscm_set_memory_port_read_buffer_size_x p c
        = .error (.misc_error "gdbscm_set_memory_port_read_buffer_size_x"
            "read buffer not empty: ~a"))
  ∧ ((min_memory_port_buf_size : Int) ≤ c →
      c ≤ (max_memory_port_buf_size : Int) →
      c.toNat ≠ p.write_buf_size → p.writeBuf ≠ [] →
      gdbscm_set_memory_port_write_buffer_size_x p c
        = .error (.misc_error "gdbscm_set_memory_port_write_buffer_size_x"
            "write buffer not empty: ~a"))
  ∧ ((min_memory_port_buf_size : Int) ≤ c →
      c ≤ (max_memory_port_buf_size : Int) →
      c.toNat ≠ p.read_buf_size → p.readFilled = 0 →
      gdbscm_set_memory_port_read_buffer_size_x p c
        = .ok { p with
                 read_buf_size := c.toNat,
                 readFilled := 0,
                 readPos := 0 })
  ∧ ((min_memory_port_buf_size : Int) ≤ c →
      c ≤ (max_memory_port_buf_size : Int) →
      c.toNat ≠ p.write_buf_size → p.writeBuf = [] →
      gdbscm_set_memory_port_write_buffer_size_x p c
        = .ok { p with write_buf_size := c.toNat })

/-- A concrete port with both a partially consumed read buffer and a
pending write buffer. -/
def c7port : MemPort :=
  { ioscm_init_memory_port 0x1000 0x10FF with
      readFilled := 5, readPos := 2, writeBuf := [1, 2],
      rwActive := .write }

/-- Conclusion of claim C8 as amended: with no explicit size the range
runs to the maximum address minus one (an end of all-ones being
disallowed), and size = end - start + 1. -/
def C8Concl (mode : String) (s : Nat) : Prop :=
  ioscm_parse_mode_bits "gdbscm_open_memory" mode = .ok () →
  s ≠ coreAddrMod - 1 →
  gdbscm_open_memory (some mode) (some s) none
      = .ok (ioscm_init_memory_port s (coreAddrMod - 1 - 1))
    ∧ (ioscm_init_memory_port s (coreAddrMod - 1 - 1)).endAddr
        = coreAddrMod - 2
    ∧ (ioscm_init_memory_port s (coreAddrMod - 1 - 1)).size
        = (coreAddrMod - 2) - s + 1
    ∧ (ioscm_init_memory_port s (coreAddrMod - 1 - 1)).size
        = (ioscm_init_memory_port s (coreAddrMod - 1 - 1)).endAddr - s + 1
    ∧ (ioscm_init_memory_port s (coreAddrMod - 1 - 1)).current = 0

/-- Conclusion of claim C9: make-iterator type-checks its step argument
and otherwise builds the iterator from exactly its three arguments
(returned raw when the outbound hook is unset); iterator-next! calls
the stored step procedure with the iterator as its single argument and
returns the call's result verbatim, whatever it is. -/
def C9Concl (ctx : Ctx) (object progress next : SCMV) : Prop :=
  (gdbscm_is_procedure next = false →
    gdbscm_make_iterator ctx object progress next
      = .error (scm_wrong_type_arg "gdbscm_make_iterator" 3 next
          "procedure"))
  ∧ (gdbscm_is_procedure next = true →
      ctx.scm_from_smob_var = .boolV false →
      gdbscm_make_iterator ctx object progress next
          = .ok (.iterV object progress next)
        ∧ iterObject (.iterV object progress next) = object
        ∧ iterProgress (.iterV object progress next) = progress
        ∧ iterNextProc (.iterV object progress next) = next)
  ∧ (∀ i, gdbscm_iterator_next_x ctx (.iterV object progress (.procV i))
        = .ok (gdbscm_safe_call_1 ctx (.procV i)
            (.iterV object progress (.procV i))))
  ∧ (∀ i v, ctx.procs i (.iterV object progress (.procV i)) = .ret v →
      gdbscm_iterator_next_x ctx (.iterV object progress (.procV i))
        = .ok v)

/-- A context with no hooks, whose procedure 0 returns the progress
field of the iterator handed to it. -/
def c9ctx : Ctx :=
  { procs := fun i arg =>
      if i = 0 then .ret (iterProgress arg) else .ret (.boolV false)
    scm_from_smob_var := .boolV false
    scm_to_smob_var := .boolV false
    registered := [exception_smob_tag, iterator_smob_tag] }

/-- A context whose conversion hooks are installed and visibly
transform values: both hooks are procedure 0, which wraps its argument
in a pair. -/
def c10wrapCtx : Ctx :=
  { procs := fun _ x => .ret (.pairV x .nullV)
    scm_from_smob_var := .procV 0
    scm_to_smob_var := .procV 0
    registered := [exception_smob_tag, iterator_smob_tag] }

/-- A context whose *scm->smob* hook (procedure 0) produces the
exception smob with the given key and args for any input. -/
def c10forgeCtx (k a : SCMV) : Ctx :=
  { procs := fun _ _ => .ret (.excpV k a)
    scm_from_smob_var := .boolV false
    scm_to_smob_var := .procV 0
    registered := [exception_smob_tag, iterator_smob_tag] }

/-- Conclusion of claim C10: make-exception yields the raw exception
smob (the outbound hook, which would wrap it, is never consulted);
exception-key / exception-args accept only a raw exception smob and
raise a wrong-type error on anything else, even when the inbound hook
stands ready to supply an exception smob for that value. -/
def C10Concl (k a v : SCMV) : Prop :=
  gdbscm_make_exception k a = .excpV k a
  ∧ gdbscm_exception_key (gdbscm_make_exception k a) = .ok k
  ∧ gdbscm_exception_args (gdbscm_make_exception k a) = .ok a
  ∧ gdbscm_scm_from_gsmob_safe c10wrapCtx (gdbscm_make_exception k a)
      = .pairV (.excpV k a) .nullV
  ∧ gdbscm_make_exception k a ≠ .pairV (.excpV k a) .nullV
  ∧ (gdbscm_is_exception v = false →
      gdbscm_exception_key v
          = .error (scm_wrong_type_arg "gdbscm_exception_key" 1 v
              "gdb:exception")
        ∧ gdbscm_exception_args v
          = .error (scm_wrong_type_arg "gdbscm_exception_args" 1 v
              "gdb:exception")
        ∧ gdbscm_scm_to_gsmob_safe (c10forgeCtx k a) v exception_smob_tag
          = .excpV k a)

/-! ## Theorems -/

theorem usub64_of_le {a b : Nat} (h : b ≤ a) : usub64 a b = a - b := by
  simp [usub64, h]

/-- Claim C1: destroying an objfile invalidates every symtab handle on
its chain — the native pointer becomes the NULL sentinel, prev/next are
cleared, the chain head is gone — and afterwards every validity-gated
accessor fails with the typed invalid-object error while the handle
remains a legal script value. -/
theorem spec_c1 (chain : List SymtabSmob) (h : chainWf chain = true)
    (names : Nat → String) (func_name : String) :
    C1Concl chain names func_name := by
  clear h
  refine ⟨rfl, ?_, ?_⟩
  · induction chain with
    | nil => rfl
    | cons a t ih => simpa [stscm_del_objfile_symtab] using ih
  · intro s hs
    induction chain with
    | nil => cases hs
    | cons a t ih =>
      rcases (by
        simpa [stscm_del_objfile_symtab] using hs :
          s = { a with symtab := none, next := none, prev := none }
            ∨ s ∈ stscm_del_objfile_symtab t) with h1 | h2
      · subst h1
        refine ⟨rfl, rfl, rfl, rfl, rfl, rfl, rfl⟩
      · exact ih h2

theorem spec_c1_witness :
    chainWf c1chain = true
      ∧ C1Concl c1chain (fun _ => "hello.c") "gdbscm_symtab_filename" :=
  ⟨by decide, spec_c1 c1chain (by decide) (fun _ => "hello.c")
    "gdbscm_symtab_filename"⟩

theorem except_bind_ok {ε α β : Type} (a : α) (f : α → Except ε β) :
    (Except.ok a : Except ε α) >>= f = f a := rfl

theorem except_bind_err {ε α β : Type} (e : ε) (f : α → Except ε β) :
    (Except.error e : Except ε α) >>= f = .error e := rfl

/-- Claim C2: flushing a memory port with pending buffered bytes is
atomic — it either rejects the whole buffered write with out-of-range
and changes nothing, or writes everything at start + current, advances
current by the byte count and empties the buffer; a direct write first
flushes and then applies the same bounds check; in particular a port of
size N accepts a write of N bytes (current becomes N) and rejects N+1
bytes (current stays 0). -/
theorem spec_c2 (t : Target) (p : MemPort) (h : p.Wf) :
    C2Concl t p
      ∧ ∀ s N data1 data2, 0 < N → s + N < coreAddrMod →
          data1.length = N → data2.length = N + 1 →
          t.writeFails s N = false → C2Open t s N data1 data2 := by
  obtain ⟨-, -, -, hcur, -⟩ := h
  have husub : usub64 p.size p.current = p.size - p.current :=
    usub64_of_le hcur
  have hflush_err : p.size - p.current < p.writeBuf.length →
      gdbscm_memory_port_flush t p
        = .error (.out_of_range "gdbscm_memory_port_flush"
            "writing beyond end of memory range") := by
    intro h1
    have h0 : ¬ p.writeBuf.length = 0 := by omega
    simp only [gdbscm_memory_port_flush, husub]
    rw [if_neg h0, if_pos (by omega)]
  have hflush_nil : p.writeBuf = [] →
      gdbscm_memory_port_flush t p = .ok (p, t) := by
    intro h1
    simp [gdbscm_memory_port_flush, h1]
  have hflush_ok : p.writeBuf ≠ [] →
      p.writeBuf.length ≤ p.size - p.current →
      t.writeFails (p.start + p.current) p.writeBuf.length = false →
      gdbscm_memory_port_flush t p
        = .ok ({ p with
                  current := p.current + p.writeBuf.length,
                  writeBuf := [],
                  rwActive := .neither },
               targetDoWrite t (p.start + p.current) p.writeBuf) := by
    intro h1 h2 h3
    have h0 : ¬ p.writeBuf.length = 0 := by
      simpa using fun hh => h1 (List.length_eq_zero.mp hh)
    simp only [gdbscm_memory_port_flush, husub, target_write_memory, h3]
    rw [if_neg h0, if_neg (by omega)]
    simp
  refine ⟨⟨hflush_err, hflush_nil, hflush_ok, ?_⟩, ?_⟩
  · intro data
    refine ⟨?_, ?_, ?_⟩
    · intro h1 h2
      simp only [gdbscm_memory_port_write, hflush_nil h1, except_bind_ok,
        husub]
      rw [if_pos h2]
    · intro h1 h2 h3
      simp only [gdbscm_memory_port_write, hflush_nil h1, except_bind_ok,
        husub, target_write_memory, h3]
      rw [if_neg (by omega)]
      simp
    · intro h1
      simp only [gdbscm_memory_port_write, hflush_err h1, except_bind_err]
  · intro s N data1 data2 hN hW hd1 hd2 hfail
    have hsval : s + N < 18446744073709551616 := by
      simpa [coreAddrMod] using hW
    have hopen : gdbscm_open_memory (some "r") (some s) (some N)
        = .ok (ioscm_init_memory_port s (s + N - 1)) := by
      simp only [gdbscm_open_memory, Option.getD]
      rw [if_neg (by simp only [coreAddrMod]; omega)]
      rw [if_neg (by omega)]
      rw [if_neg (by
        rw [Nat.mod_eq_of_lt (by simpa [coreAddrMod] using hW)]
        omega)]
      rw [Nat.mod_eq_of_lt (by simp only [coreAddrMod]; omega)]
      rw [if_neg (by simp only [coreAddrMod]; omega)]
      rfl
    have hsize : (ioscm_init_memory_port s (s + N - 1)).size = N := by
      simp only [ioscm_init_memory_port]
      omega
    have hnil : (ioscm_init_memory_port s (s + N - 1)).writeBuf = [] := rfl
    have hflush0 : gdbscm_memory_port_flush t
        (ioscm_init_memory_port s (s + N - 1))
        = .ok (ioscm_init_memory_port s (s + N - 1), t) := by
      simp [gdbscm_memory_port_flush, hnil]
    have husub2 : usub64 (ioscm_init_memory_port s (s + N - 1)).size
        (ioscm_init_memory_port s (s + N - 1)).current = N := by
      rw [usub64_of_le (by simp [ioscm_init_memory_port])]
      simp only [ioscm_init_memory_port]
      omega
    refine ⟨hopen, hsize, rfl, ?_, ?_⟩
    · simp only [gdbscm_memory_port_write, hflush0, except_bind_ok,
        target_write_memory, husub2]
      rw [if_neg (by omega)]
      rw [if_neg (by
        simpa [ioscm_init_memory_port, hd1] using
          (by simpa using hfail : ¬ t.writeFails s N = true))]
      simp [ioscm_init_memory_port, hd1, Except.map]
    · simp only [gdbscm_memory_port_write, hflush0, except_bind_ok, husub2]
      rw [if_pos (by omega)]

theorem spec_c2_witness :
    c2port.Wf
      ∧ (C2Concl okTarget c2port
          ∧ ∀ s N data1 data2, 0 < N → s + N < coreAddrMod →
              data1.length = N → data2.length = N + 1 →
              okTarget.writeFails s N = false →
              C2Open okTarget s N data1 data2) :=
  ⟨by decide, spec_c2 okTarget c2port (by decide)⟩

/-- Claim C3 counterexample: an input whose resulting end address would
be all-ones (start 1, size 2^64 - 1) does not get a distinct
end-all-ones error — the start+size wrap check fires first and yields
the same error as a pure wrap case whose end would not be all-ones
(start 2, same size).  The "end address of 0xff..ff" error site is
unreachable: end = all-ones forces start + size = 2^64, which always
wraps. -/
theorem spec_c3_counterexample :
    gdbscm_open_memory (some "r") (some 1) (some (coreAddrMod - 1))
        = .error (.out_of_range "gdbscm_open_memory" "start+size overflows")
    ∧ (1 + (coreAddrMod - 1) - 1) % coreAddrMod = coreAddrMod - 1
    ∧ gdbscm_open_memory (some "r") (some 2) (some (coreAddrMod - 1))
        = .error (.out_of_range "gdbscm_open_memory" "start+size overflows")
    ∧ (2 + (coreAddrMod - 1) - 1) % coreAddrMod ≠ coreAddrMod - 1 := by
  refine ⟨?_, by decide, ?_, by decide⟩ <;> decide

/-- Claim C3 as amended: opening with an explicit size rejects an
all-ones start, a zero size and a wrapping start+size, each with its
own distinct out-of-range error; the end-all-ones condition is subsumed
by the wrap check (see the counterexample) and raises the wrap error;
otherwise opening succeeds with end = start + size - 1, current = 0. -/
theorem spec_c3 (mode : String) (s n : Nat) (hs : s < coreAddrMod)
    (hn : n < coreAddrMod) : C3Concl mode s n := by
  have hs64 : s < 18446744073709551616 := by simpa [coreAddrMod] using hs
  have hn64 : n < 18446744073709551616 := by simpa [coreAddrMod] using hn
  refine ⟨?_, ?_, ?_, ?_, by decide, by decide, by decide⟩
  · intro h1
    simp [gdbscm_open_memory, h1]
  · intro h1 h2
    simp only [gdbscm_open_memory, Option.getD]
    rw [if_neg h1, h2]
    rfl
  · intro h1 h2 h3
    have hmod : (s + n) % coreAddrMod = s + n - coreAddrMod := by
      rw [Nat.mod_eq_sub_mod h3,
        Nat.mod_eq_of_lt (by simp only [coreAddrMod] at *; omega)]
    simp only [gdbscm_open_memory, Option.getD]
    rw [if_neg h1, if_neg h2, if_pos (by
      rw [hmod]
      simp only [coreAddrMod] at *
      omega)]
  · intro h1 h2 h3
    have hlt : s + n < 18446744073709551616 := by
      simpa [coreAddrMod] using h2
    have hopen : gdbscm_open_memory (some mode) (some s) (some n)
        = .ok (ioscm_init_memory_port s (s + n - 1)) := by
      simp only [gdbscm_open_memory, Option.getD]
      rw [if_neg (by simp only [coreAddrMod]; omega)]
      rw [if_neg h1]
      rw [if_neg (by
        rw [Nat.mod_eq_of_lt (by simpa [coreAddrMod] using h2)]
        omega)]
      rw [Nat.mod_eq_of_lt (by simp only [coreAddrMod]; omega)]
      rw [if_neg (by simp only [coreAddrMod]; omega)]
      rw [h3]
      rfl
    exact ⟨hopen, rfl, rfl⟩

theorem spec_c3_witness :
    0x1000 < coreAddrMod ∧ 4 < coreAddrMod ∧ C3Concl "r+" 0x1000 4 :=
  ⟨by decide, by decide, spec_c3 "r+" 0x1000 4 (by decide) (by decide)⟩

/-- Claim C4: after writing 3 bytes on an r+ port of size 4 at 0x1000,
a seek(0, from-current) reports position 3 without flushing or
disturbing the write buffer; a further write of 2 bytes fails with
out-of-range (3 + 2 > 4) and the logical position stays 3.  Shown both
for the direct-write state (current = 3) and for the buffered state
(current = 0 with 3 bytes pending): in the latter, the failing write
has flushed the 3 pending bytes — the port observed after the throw is
the flush result, whose current is 3. -/
theorem spec_c4 :
    gdbscm_open_memory (some "r+") (some 0x1000) (some 4) = .ok c4port0
    ∧ (scm_lfwrite okTarget c4port0 [10, 20, 30]).map Prod.fst
        = .ok c4port1
    ∧ (gdbscm_memory_port_seek okTarget c4port1 0 .cur).map
          (fun r => (r.1, r.2.1)) = .ok (3, c4port1)
    ∧ (scm_lfwrite okTarget c4port1 [40, 50]).map Prod.fst
        = .error (.out_of_range "gdbscm_memory_port_write"
            "writing beyond end of memory range")
    ∧ c4port1.current = 3
    ∧ (gdbscm_memory_port_seek okTarget c4portBuf 0 .cur).map
          (fun r => (r.1, r.2.1)) = .ok (3, c4portBuf)
    ∧ (gdbscm_memory_port_write okTarget c4portBuf [40, 50]).map Prod.fst
        = .error (.out_of_range "gdbscm_memory_port_write"
            "writing beyond end of memory range")
    ∧ (gdbscm_memory_port_flush okTarget c4portBuf).map
          (fun r => r.1.current) = .ok 3 := by
  refine ⟨?_, ?_, ?_, ?_, by decide, ?_, ?_, ?_⟩ <;> decide

/-- Claim C5 counterexample: the inbound conversion has a fourth
outcome the claim omits.  With the hook installed above, converting the
tag-102 smob to expected tag 5 returns the hook's freshly produced
tag-5 handle — a value that is not the input unchanged, not a false
value, and not an Exception Value. -/
theorem spec_c5_counterexample :
    gdbscm_scm_to_gsmob_safe c5ctx (.smobV 99 3) 5 = .smobV 2 7
    ∧ (SCMV.smobV 2 7) ≠ .smobV 99 3
    ∧ gdbscm_is_false (.smobV 2 7) = false
    ∧ gdbscm_is_exception (.smobV 2 7) = false := by
  refine ⟨?_, by decide, by decide, by decide⟩
  decide

/-- Claim C5 as amended: the inbound conversion has exactly four
outcomes — the value unchanged when its tag already matches (or, for
the wildcard, is registered); #f when the hook is unset or answers #f;
the hook's returned handle when it is of the expected kind; and an
Exception Value when the hook throws or returns anything else.  The
unsafe variant returns the same result, re-raising an exception outcome
as a throw. -/
theorem spec_c5 (ctx : Ctx) (v : SCMV) (tag : Nat) : C5Concl ctx v tag := by
  refine ⟨?_, ?_, ?_, ?_, ?_⟩
  · intro h1
    simp [gdbscm_scm_to_gsmob_safe, h1]
  · intro h1 h2
    simp [gdbscm_scm_to_gsmob_safe, h1, h2, gdbscm_is_false]
  · intro i h1 h2
    refine ⟨?_, ?_, ?_, ?_, ?_⟩
    · intro h3
      simp [gdbscm_scm_to_gsmob_safe, h1, h2, gdbscm_is_false, h3]
    · intro h3
      have h4 : gdbscm_safe_call_1 ctx (.procV i) v ≠ .boolV false := by
        intro hh
        rw [hh] at h3
        simp [gdbscm_is_exception, smobPredicate, smobTag] at h3
      simp [gdbscm_scm_to_gsmob_safe, h1, h2, gdbscm_is_false, h3, h4]
    · intro k a h3
      have hcall : gdbscm_safe_call_1 ctx (.procV i) v = .excpV k a := by
        simp [gdbscm_safe_call_1, h3]
      have h4 : gdbscm_safe_call_1 ctx (.procV i) v ≠ .boolV false := by
        simp [hcall]
      have h5 : gdbscm_is_exception (gdbscm_safe_call_1 ctx (.procV i) v)
          = true := by
        simp [hcall, gdbscm_is_exception, smobPredicate, smobTag,
          exception_smob_tag]
      simp only [gdbscm_scm_to_gsmob_safe, h1, h2, gdbscm_is_false, h4, h5,
        hcall]
      simp [gdbscm_is_exception, smobPredicate, smobTag, exception_smob_tag]
    · intro h3 h4 h5
      simp [gdbscm_scm_to_gsmob_safe, h1, h2, gdbscm_is_false, h3, h4, h5]
    · intro h3 h4 h5
      refine ⟨?_, by
        simp [gdbscm_make_out_of_range_error, gdbscm_make_arg_error,
          gdbscm_make_error, gdbscm_make_error_scm, gdbscm_make_exception,
          gdbscm_is_exception, smobPredicate, smobTag]⟩
      simp [gdbscm_scm_to_gsmob_safe, h1, h2, gdbscm_is_false, h3, h4, h5]
  · intro h1
    simp [ gdbscm_scm_to_gsmob_unsafe, h1]
  · intro h1
    simp [ gdbscm_scm_to_gsmob_unsafe, h1]

theorem spec_c5_witness :
    gdbscm_scm_to_gsmob_safe c5ctx (.smobV 99 3) 5
      = gdbscm_safe_call_1 c5ctx (.procV 0) (.smobV 99 3) :=
  ((spec_c5 c5ctx (.smobV 99 3) 5).2.2.1 0 (by decide) rfl).2.2.2.1
    (by decide) (by decide) (by decide)

/-- Claim C6: converting a host internal exception to an Exception
Value is total in (reason, error): quit maps to the signal key carrying
SIGINT, a memory error to gdb:memory-error, everything else to
gdb:error, with the record's message text as the single argument in the
non-interrupt cases. -/
theorem spec_c6 (e : gdb_exception) : C6Concl e := by
  refine ⟨?_, ?_, ?_⟩
  · intro h1
    simp [gdbscm_scm_from_gdb_exception, h1, gdbscm_make_error,
      gdbscm_make_error_scm, gdbscm_make_exception]
  · intro h1 h2
    simp [gdbscm_scm_from_gdb_exception, h1, h2, gdbscm_make_error,
      gdbscm_make_error_scm, gdbscm_make_exception]
  · intro h1 h2
    simp [gdbscm_scm_from_gdb_exception, h1, h2, gdbscm_make_error,
      gdbscm_make_error_scm, gdbscm_make_exception]

theorem spec_c6_witness :
    gdbscm_scm_from_gdb_exception ⟨-2, 1, "quit"⟩
        = .excpV (.symV "signal")
            (scmList [.boolV false, .strV "User interrupt", .nullV,
              scmList [.intV SIGINT]])
    ∧ gdbscm_scm_from_gdb_exception ⟨-1, 9, "fault"⟩
        = .excpV (.symV "gdb:memory-error")
            (scmList [.boolV false, .strV "~A",
              scmList [.strV "fault"], .boolV false])
    ∧ gdbscm_scm_from_gdb_exception ⟨-1, 1, "oops"⟩
        = .excpV (.symV "gdb:error")
            (scmList [.boolV false, .strV "~A",
              scmList [.strV "oops"], .boolV false]) :=
  ⟨(spec_c6 ⟨-2, 1, "quit"⟩).1 rfl,
   (spec_c6 ⟨-1, 9, "fault"⟩).2.1 (by decide) rfl,
   (spec_c6 ⟨-1, 1, "oops"⟩).2.2 (by decide) (by decide)⟩

/-- Claim C7: resizing a memory port buffer within [1, 4096] fails when
that buffer holds data and the capacity actually changes; resizing to
the current capacity is a no-op that always succeeds; a capacity
outside [1, 4096] is an out-of-range error; a successful resize of one
buffer leaves the other buffer's capacity and contents unchanged. -/
theorem spec_c7 (p : MemPort) (h : p.Wf) (c : Int) : C7Concl p c := by
  obtain ⟨-, -, -, -, hrp, hrf, hwb, hr1, hr2, hw1, hw2⟩ := h
  refine ⟨?_, ?_, ?_, ?_, ?_, ?_, ?_⟩
  · intro h1
    constructor
    · simp only [gdbscm_set_memory_port_read_buffer_size_x]
      rw [if_pos h1]
    · simp only [gdbscm_set_memory_port_write_buffer_size_x]
      rw [if_pos h1]
  · intro h1
    have hin : (min_memory_port_buf_size : Int) ≤ c
        ∧ c ≤ (max_memory_port_buf_size : Int) := by
      simp only [min_memory_port_buf_size, max_memory_port_buf_size] at *
      omega
    have htn : c.toNat = p.read_buf_size := by omega
    simp only [gdbscm_set_memory_port_read_buffer_size_x]
    rw [if_neg (by simpa using hin)]
    simp [ioscm_reinit_memory_port, htn]
  · intro h1
    have hin : (min_memory_port_buf_size : Int) ≤ c
        ∧ c ≤ (max_memory_port_buf_size : Int) := by
      simp only [min_memory_port_buf_size, max_memory_port_buf_size] at *
      omega
    have htn : c.toNat = p.write_buf_size := by omega
    simp only [gdbscm_set_memory_port_write_buffer_size_x]
    rw [if_neg (by simpa using hin)]
    simp [ioscm_reinit_memory_port, htn]
  · intro h1 h2 h3 h4
    have h5 : p.readFilled ≠ 0 := by omega
    simp only [gdbscm_set_memory_port_read_buffer_size_x]
    rw [if_neg (by simp [h1, h2])]
    simp [ioscm_reinit_memory_port, h3, h5]
  · intro h1 h2 h3 h4
    simp only [gdbscm_set_memory_port_write_buffer_size_x]
    rw [if_neg (by simp [h1, h2])]
    simp [ioscm_reinit_memory_port, h3, h4]
  · intro h1 h2 h3 h4
    simp only [gdbscm_set_memory_port_read_buffer_size_x]
    rw [if_neg (by simp [h1, h2])]
    simp [ioscm_reinit_memory_port, h3, h4]
  · intro h1 h2 h3 h4
    simp only [gdbscm_set_memory_port_write_buffer_size_x]
    rw [if_neg (by simp [h1, h2])]
    simp [ioscm_reinit_memory_port, h3, h4]

theorem spec_c7_witness :
    c7port.Wf ∧ C7Concl c7port 32 :=
  ⟨by decide, spec_c7 c7port (by decide) 32⟩

/-- Claim C8 counterexample: a port opened with a start address and no
explicit size has end bound 2^64 - 2 (all-ones minus one), not the
maximum address 2^64 - 1 the claim asserts. -/
theorem spec_c8_counterexample :
    (gdbscm_open_memory (some "r") (some 0) none).map (fun p => p.endAddr)
        = .ok (coreAddrMod - 2)
    ∧ coreAddrMod - 2 ≠ coreAddrMod - 1 := by
  refine ⟨?_, by decide⟩
  decide

/-- Claim C8 as amended: a memory port opened with a start address but
no explicit size extends to the maximum address minus one (the all-ones
end is disallowed), with size = end - start + 1. -/
theorem spec_c8 (mode : String) (s : Nat) : C8Concl mode s := by
  intro h1 h2
  refine ⟨?_, by rfl, rfl, rfl, rfl⟩
  simp only [gdbscm_open_memory, Option.getD]
  rw [if_neg h2, h1]
  rfl

theorem spec_c8_witness :
    gdbscm_open_memory (some "w") (some 0x1000) none
      = .ok (ioscm_init_memory_port 0x1000 (coreAddrMod - 1 - 1)) :=
  (spec_c8 "w" 0x1000 (by decide) (by decide)).1

/-- Claim C9: make-iterator raises a wrong-type error when its step
argument is not callable and otherwise returns a fresh iterator whose
object, progress and step fields are exactly the three arguments;
iterator-next! invokes the stored step with the iterator as its single
argument and returns that result verbatim, imposing no end-of-sequence
sentinel. -/
theorem spec_c9 (ctx : Ctx) (object progress next : SCMV) :
    C9Concl ctx object progress next := by
  have hiter : ∀ z1 z2 z3, itscm_is_iterator (.iterV z1 z2 z3) = true := by
    intro z1 z2 z3
    simp [itscm_is_iterator, smobPredicate, smobTag, iterator_smob_tag]
  have hnotexc : ∀ z1 z2 z3,
      gdbscm_is_exception (.iterV z1 z2 z3) = false := by
    intro z1 z2 z3
    simp [gdbscm_is_exception, smobPredicate, smobTag, exception_smob_tag,
      iterator_smob_tag]
  have hgets : ∀ z1 z2 z3,
      itscm_get_iterator_arg_unsafe ctx (.iterV z1 z2 z3) 1
          "gdbscm_iterator_next_x" = .ok (.iterV z1 z2 z3) := by
    intro z1 z2 z3
    simp [ itscm_get_iterator_arg_unsafe, itscm_scm_to_iterator_gsmob,
      gdbscm_scm_to_gsmob_safe, smobPredicate, smobTag, iterator_smob_tag,
      hnotexc, hiter]
  refine ⟨?_, ?_, ?_, ?_⟩
  · intro h1
    simp [gdbscm_make_iterator, h1]
  · intro h1 h2
    refine ⟨?_, rfl, rfl, rfl⟩
    simp [gdbscm_make_iterator, h1, itscm_make_iterator_smob,
      gdbscm_scm_from_gsmob_unsafe, gdbscm_scm_from_gsmob_safe, h2,
      gdbscm_is_false, hnotexc]
  · intro i
    simp [gdbscm_iterator_next_x, hgets, except_bind_ok, iterNextProc]
  · intro i v hv
    simp [gdbscm_iterator_next_x, hgets, except_bind_ok, iterNextProc,
      gdbscm_safe_call_1, hv]

theorem spec_c9_witness :
    gdbscm_iterator_next_x c9ctx
        (.iterV (.strV "collection") (.intV 0) (.procV 0))
      = .ok (.intV 0) :=
  (spec_c9 c9ctx (.strV "collection") (.intV 0) (.procV 0)).2.2.2 0
    (.intV 0) rfl

/-- Claim C10: Exception Values are exempt from the conversion
protocol — make-exception never routes the new object through the
outbound hook, and exception-key / exception-args demand a raw
exception handle without consulting the inbound hook, so hooks cannot
intercept, wrap or forge an Exception Value. -/
theorem spec_c10 (k a v : SCMV) : C10Concl k a v := by
  refine ⟨rfl, rfl, rfl, ?_, by simp [gdbscm_make_exception], ?_⟩
  · simp [gdbscm_scm_from_gsmob_safe, gdbscm_make_exception,
      gdbscm_is_false, c10wrapCtx, gdbscm_safe_call_1]
  · intro h1
    have hne : ∀ kk aa, v ≠ .excpV kk aa := by
      intro kk aa hh
      rw [hh] at h1
      simp [gdbscm_is_exception, smobPredicate, smobTag,
        exception_smob_tag] at h1
    refine ⟨?_, ?_, ?_⟩
    · cases v <;> first
        | rfl
        | exact absurd rfl (hne _ _)
    · cases v <;> first
        | rfl
        | exact absurd rfl (hne _ _)
    · have hsp : smobPredicate exception_smob_tag v = false := h1
      have hcond : ¬ ((if exception_smob_tag ≠ 0 then
          smobPredicate exception_smob_tag v
          else gdbscm_is_gsmob (c10forgeCtx k a) v) = true) := by
        rw [if_pos (show exception_smob_tag ≠ 0 by decide)]
        simp [hsp]
      simp only [gdbscm_scm_to_gsmob_safe]
      rw [if_neg hcond]
      simp [c10forgeCtx, gdbscm_is_false, gdbscm_safe_call_1,
        gdbscm_is_exception, smobPredicate, smobTag, exception_smob_tag]

theorem spec_c10_witness :
    gdbscm_exception_key (.intV 42)
        = .error (scm_wrong_type_arg "gdbscm_exception_key" 1 (.intV 42)
            "gdb:exception")
      ∧ gdbscm_scm_to_gsmob_safe
          (c10forgeCtx (.symV "gdb:error") (scmList [.strV "boom"]))
          (.intV 42) exception_smob_tag
        = .excpV (.symV "gdb:error") (scmList [.strV "boom"]) :=
  ⟨((spec_c10 (.symV "gdb:error") (scmList [.strV "boom"])
      (.intV 42)).2.2.2.2.2 (by decide)).1,
   ((spec_c10 (.symV "gdb:error") (scmList [.strV "boom"])
      (.intV 42)).2.2.2.2.2 (by decide)).2.2⟩
